import Mathlib

/-!
Verification of the core of `spc2wav.c` (SNES SPC → WAV converter) against its
natural-language specification.  The C source is shallowly embedded: bytes are
`Nat` values below 256, machine integers are `Nat`/`Int` with explicit
`% 2^32` where unsigned-overflow semantics matter, buffers are `List Nat`,
and 16-bit samples are `Int`.  The `double` fade arithmetic of the source is
embedded as exact rational scaling truncated toward zero (`Int.tdiv`), which
agrees with the IEEE computation on every input appearing in the claims.
-/

set_option maxHeartbeats 1000000

namespace Spc2Wav

/-- Embeds `pack_uint16le`: two bytes, little endian; each byte is the
`uint8_t` cast (`% 256`) of the shifted value. -/
def pack_uint16le (n : Nat) : List Nat :=
  [n % 256, (n >>> 8) % 256]

/-- Embeds `pack_uint32le`: four bytes, little endian. -/
def pack_uint32le (n : Nat) : List Nat :=
  [n % 256, (n >>> 8) % 256, (n >>> 16) % 256, (n >>> 24) % 256]

/-- Little-endian reading of a 4-byte field; the canonical inverse of
`pack_uint32le`, used to state what a written field decodes to. -/
def unpack_uint32le : List Nat → Nat
  | b0 :: b1 :: b2 :: b3 :: _ => b0 + b1 * 256 + b2 * 65536 + b3 * 16777216
  | _ => 0

/-- Embeds `pack_uint32_syncsafe`: four bytes of 7 significant bits each,
most-significant group first, via the masks `0x0FE00000`, `0x001FC000`,
`0x00003F80`, `0x0000007F`.  The C `uint8_t` casts are identities here
because every mask keeps at most 7 bits. -/
def pack_uint32_syncsafe (val : Nat) : List Nat :=
  [(val &&& 0x0FE00000) >>> 21,
   (val &&& 0x001FC000) >>> 14,
   (val &&& 0x00003F80) >>> 7,
   (val &&& 0x0000007F)]

/-- Syncsafe reading of a 4-byte field (7 bits per byte, most-significant
group first); the canonical inverse of `pack_uint32_syncsafe`, used to state
what a written size field decodes to. -/
def unpack_uint32_syncsafe : List Nat → Nat
  | b0 :: b1 :: b2 :: b3 :: _ => b0 * 2097152 + b1 * 16384 + b2 * 128 + b3
  | _ => 0

/-- A masked-and-shifted byte extraction is a div/mod digit extraction. -/
theorem land_mask_shift (v k : Nat) :
    (v &&& ((2 ^ 7 - 1) <<< k)) >>> k = v / 2 ^ k % 2 ^ 7 := by
  rw [← Nat.shiftRight_eq_div_pow]
  apply Nat.eq_of_testBit_eq
  intro j
  simp only [Nat.testBit_shiftRight, Nat.testBit_and, Nat.testBit_shiftLeft,
    Nat.testBit_mod_two_pow, Nat.testBit_two_pow_sub_one,
    Nat.le_add_right, decide_True, Bool.true_and, Nat.add_sub_cancel_left]
  rw [Bool.and_comm]

theorem syncsafe_byte0 (v : Nat) :
    (v &&& 0x0FE00000) >>> 21 = v / 2097152 % 128 := by
  have h := land_mask_shift v 21
  rw [Nat.shiftLeft_eq] at h
  norm_num at h
  exact h

theorem syncsafe_byte1 (v : Nat) :
    (v &&& 0x001FC000) >>> 14 = v / 16384 % 128 := by
  have h := land_mask_shift v 14
  rw [Nat.shiftLeft_eq] at h
  norm_num at h
  exact h

theorem syncsafe_byte2 (v : Nat) :
    (v &&& 0x00003F80) >>> 7 = v / 128 % 128 := by
  have h := land_mask_shift v 7
  rw [Nat.shiftLeft_eq] at h
  norm_num at h
  exact h

theorem syncsafe_byte3 (v : Nat) :
    v &&& 0x0000007F = v % 128 := by
  have h := land_mask_shift v 0
  rw [Nat.shiftLeft_eq] at h
  norm_num at h
  exact h

/-- Reusable round-trip for the syncsafe encoding on 28-bit values. -/
theorem syncsafe_roundtrip_aux (v : Nat) (hv : v < 268435456) :
    unpack_uint32_syncsafe (pack_uint32_syncsafe v) = v := by
  simp only [pack_uint32_syncsafe, unpack_uint32_syncsafe,
    syncsafe_byte0, syncsafe_byte1, syncsafe_byte2, syncsafe_byte3]
  omega

/-- C4: for every `v < 2^28`, decoding the four bytes produced by
`pack_uint32_syncsafe` (7 bits per byte, most-significant group first)
yields `v` exactly; and for every `v`, bits 28 and above do not affect the
output. -/
theorem c4_syncsafe_roundtrip (v : Nat) :
    (v < 268435456 →
      unpack_uint32_syncsafe (pack_uint32_syncsafe v) = v) ∧
    pack_uint32_syncsafe v = pack_uint32_syncsafe (v % 268435456) := by
  refine ⟨fun hv => syncsafe_roundtrip_aux v hv, ?_⟩
  simp only [pack_uint32_syncsafe,
    syncsafe_byte0, syncsafe_byte1, syncsafe_byte2, syncsafe_byte3,
    List.cons.injEq, and_true]
  omega

/-- Witness for C4 at `v = 200000000` (within 28 bits) and at
`v = 2^28 + 7` (bit 28 set, dropped by the encoder). -/
theorem c4_syncsafe_roundtrip_witness :
    unpack_uint32_syncsafe (pack_uint32_syncsafe 200000000) = 200000000 ∧
    pack_uint32_syncsafe 268435463 = pack_uint32_syncsafe (268435463 % 268435456) := by
  exact ⟨(c4_syncsafe_roundtrip 200000000).1 (by norm_num),
         (c4_syncsafe_roundtrip 268435463).2⟩

/-! ## The growable tag buffer and the ID3 tag builder

The `str_buffer` of the source holds bytes `x[0..len)`.  Only the used
prefix is observable, so a buffer state is a `List Nat` whose length is the
`len` field.  Reallocation (`realloc` growth by 512) only decides the
out-of-memory `-1` path and never changes the byte content, so the embedded
operations model the successful path of each `id3_add_*` function. -/

/-- Overwriting `bs.length` bytes of `s` starting at offset `off`
(the semantics of writing into `&s->x[off]` within the used region). -/
def writeAt (s : List Nat) (off : Nat) (bs : List Nat) : List Nat :=
  s.take off ++ bs ++ s.drop (off + bs.length)

/-- Embeds `id3_update_len`: rewrite the 4 bytes at offset 6 with the
syncsafe encoding of `len - 10`.  (In C the subtraction is on `uint32_t`;
every call site has `len ≥ 10`, where it agrees with `Nat` subtraction.) -/
def id3_update_len (s : List Nat) : List Nat :=
  writeAt s 6 (pack_uint32_syncsafe (s.length - 10))

/-- Embeds `id3_init`: the 10-byte preamble `"ID3" 0x04 0x00 0x00` followed
by the size field written by `id3_update_len` (the four bytes at offsets
6-9 are uninitialized in C before `id3_update_len` overwrites them; they are
0 here). -/
def id3_init : List Nat :=
  id3_update_len [73, 68, 51, 0x04, 0x00, 0x00, 0, 0, 0, 0]

/-- Embeds `id3_add_text` (successful path): append the 4-byte frame id, the
syncsafe payload length `1 + datalen + 1`, two flag bytes, the encoding byte
`0x03`, the `datalen` data bytes and a terminator, then rewrite the preamble
size field.  `data` is exactly the `datalen` bytes the C `memcpy` copies. -/
def id3_add_text (s frame data : List Nat) : List Nat :=
  id3_update_len
    (s ++ frame ++ pack_uint32_syncsafe (1 + data.length + 1) ++
      [0x00, 0x00, 0x03] ++ data ++ [0x00])

/-- Embeds `id3_add_comment` (successful path): `"COMM"` id, syncsafe payload
length `1 + 3 + datalen + 1 + 1`, flags, encoding, `"eng"` language code, an
empty short description, the data bytes and a terminator. -/
def id3_add_comment (s data : List Nat) : List Nat :=
  id3_update_len
    (s ++ [67, 79, 77, 77] ++ pack_uint32_syncsafe (1 + 3 + data.length + 1 + 1) ++
      [0x00, 0x00, 0x03] ++ [101, 110, 103, 0x00] ++ data ++ [0x00])

/-- The `datalen` bytes `memcpy` reads from a buffer holding `data`: the
first `datalen` bytes of `data`, padded with unspecified bytes (modelled as
0) when `datalen` exceeds the buffer — the C read past the end is
indeterminate, but its byte count is always exactly `datalen`. -/
def byteTake (datalen : Nat) (data : List Nat) : List Nat :=
  data.take datalen ++ List.replicate (datalen - data.length) 0

/-- Embeds `id3_add_private` (successful path): `"TXXX"` id, syncsafe payload
length `1 + strlen(description) + 1 + datalen + 1`, flags, encoding, the
description and its terminator, `datalen` data bytes and a terminator.
Unlike the other two adders, the data byte count is the separate `datalen`
argument, not the length of the string the data pointer holds. -/
def id3_add_private (s description data : List Nat) (datalen : Nat) : List Nat :=
  id3_update_len
    (s ++ [84, 88, 88, 88] ++
      pack_uint32_syncsafe (1 + description.length + 1 + datalen + 1) ++
      [0x00, 0x00, 0x03] ++ description ++ [0x00] ++ byteTake datalen data ++ [0x00])

/-- Embeds `strnlen` for NUL-free strings modelled as byte lists. -/
def strnlen (s : List Nat) (n : Nat) : Nat := min s.length n

/-- The string literal `"spc_dumper"` passed by `main`. -/
def spc_dumper : List Nat := [115, 112, 99, 95, 100, 117, 109, 112, 101, 114]

/-- Embeds the dumper branch of `main`'s tag assembly (line 223): the data
pointer is `id6.dumper` but the length argument is `strnlen(id6.game,256)`. -/
def main_add_dumper (s game dumper : List Nat) : List Nat :=
  id3_add_private s spc_dumper dumper (strnlen game 256)

/-- The preamble size field: the four bytes at offsets 6-9. -/
def sizeField (s : List Nat) : Nat :=
  unpack_uint32_syncsafe ((s.drop 6).take 4)

theorem writeAt_length (s bs : List Nat) (off : Nat)
    (h : off + bs.length ≤ s.length) :
    (writeAt s off bs).length = s.length := by
  simp [writeAt]
  omega

theorem writeAt_drop_take (s bs : List Nat) (off : Nat)
    (h : off ≤ s.length) :
    ((writeAt s off bs).drop off).take bs.length = bs := by
  unfold writeAt
  rw [List.append_assoc,
    List.drop_left' (by rw [List.length_take]; omega), List.take_left' rfl]

theorem writeAt_drop_of_ge (t bs : List Nat) (k : Nat)
    (hk : 6 + bs.length ≤ k) (hlen : 6 ≤ t.length) :
    (writeAt t 6 bs).drop k = t.drop k := by
  unfold writeAt
  rw [List.drop_append_eq_append_drop, List.drop_append_eq_append_drop]
  have h1 : (t.take 6).length = 6 := by rw [List.length_take]; omega
  have h2 : ((t.take 6) ++ bs).length = 6 + bs.length := by
    rw [List.length_append, h1]
  rw [List.drop_eq_nil_of_le (by omega), List.drop_eq_nil_of_le (by omega)]
  simp only [List.nil_append, List.drop_drop, List.length_append, List.length_take]
  congr 1
  omega

theorem pack_uint32_syncsafe_length (v : Nat) :
    (pack_uint32_syncsafe v).length = 4 := rfl

theorem id3_update_len_length (t : List Nat) (h : 10 ≤ t.length) :
    (id3_update_len t).length = t.length := by
  unfold id3_update_len
  rw [writeAt_length]
  rw [pack_uint32_syncsafe_length]
  omega

theorem id3_update_len_sizeField (t : List Nat) (h : 10 ≤ t.length)
    (hbound : t.length - 10 < 268435456) :
    sizeField (id3_update_len t) = t.length - 10 := by
  unfold sizeField id3_update_len
  have h4 := writeAt_drop_take t (pack_uint32_syncsafe (t.length - 10)) 6 (by omega)
  rw [pack_uint32_syncsafe_length] at h4
  rw [h4]
  exact syncsafe_roundtrip_aux _ hbound

theorem byteTake_length (n : Nat) (l : List Nat) : (byteTake n l).length = n := by
  simp [byteTake]
  omega

/-- Extraction of a syncsafe field sitting after two leading segments. -/
theorem drop_take_pack (A B C : List Nat) (v k : Nat)
    (hk : k = A.length + B.length) :
    ((A ++ (B ++ (pack_uint32_syncsafe v ++ C))).drop k).take 4
      = pack_uint32_syncsafe v := by
  subst hk
  rw [← List.append_assoc A B, List.drop_left' (by simp),
    List.take_left' (show (pack_uint32_syncsafe v).length = 4 from rfl)]

/-- C3: after `id3_init` the used length is 10 and the preamble size field
decodes to 0; after every successful `id3_add_text`, `id3_add_comment` or
`id3_add_private` on a well-formed buffer the 4-byte syncsafe field at
offset 6 decodes to exactly the used length minus 10.  The bounds keep the
resulting size representable in the 28-bit syncsafe field. -/
theorem c3_sizeField_invariant (s frame data cdata desc pdata : List Nat)
    (datalen : Nat) (hs : 10 ≤ s.length)
    (h1 : s.length + frame.length + data.length + 8 ≤ 268435465)
    (h2 : s.length + cdata.length + 16 ≤ 268435465)
    (h3 : s.length + desc.length + datalen + 13 ≤ 268435465) :
    id3_init.length = 10 ∧ sizeField id3_init = 0 ∧
    sizeField (id3_add_text s frame data)
      = (id3_add_text s frame data).length - 10 ∧
    sizeField (id3_add_comment s cdata)
      = (id3_add_comment s cdata).length - 10 ∧
    sizeField (id3_add_private s desc pdata datalen)
      = (id3_add_private s desc pdata datalen).length - 10 := by
  refine ⟨by decide, by decide, ?_, ?_, ?_⟩
  · unfold id3_add_text
    have hlen : (s ++ frame ++ pack_uint32_syncsafe (1 + data.length + 1) ++
        [0x00, 0x00, 0x03] ++ data ++ [0x00]).length
        = s.length + frame.length + data.length + 8 := by
      simp [pack_uint32_syncsafe]
      omega
    rw [id3_update_len_length _ (by rw [hlen]; omega),
      id3_update_len_sizeField _ (by rw [hlen]; omega) (by rw [hlen]; omega)]
  · unfold id3_add_comment
    have hlen : (s ++ [67, 79, 77, 77] ++
        pack_uint32_syncsafe (1 + 3 + cdata.length + 1 + 1) ++
        [0x00, 0x00, 0x03] ++ [101, 110, 103, 0x00] ++ cdata ++ [0x00]).length
        = s.length + cdata.length + 16 := by
      simp [pack_uint32_syncsafe]
      omega
    rw [id3_update_len_length _ (by rw [hlen]; omega),
      id3_update_len_sizeField _ (by rw [hlen]; omega) (by rw [hlen]; omega)]
  · unfold id3_add_private
    have hlen : (s ++ [84, 88, 88, 88] ++
        pack_uint32_syncsafe (1 + desc.length + 1 + datalen + 1) ++
        [0x00, 0x00, 0x03] ++ desc ++ [0x00] ++ byteTake datalen pdata ++
        [0x00]).length = s.length + desc.length + datalen + 13 := by
      simp [pack_uint32_syncsafe, byteTake_length]
      omega
    rw [id3_update_len_length _ (by rw [hlen]; omega),
      id3_update_len_sizeField _ (by rw [hlen]; omega) (by rw [hlen]; omega)]

/-- Witness for C3 on a fresh buffer and small concrete frames. -/
theorem c3_sizeField_invariant_witness :
    id3_init.length = 10 ∧ sizeField id3_init = 0 ∧
    sizeField (id3_add_text id3_init [84, 73, 84, 50] [72, 101, 108, 108, 111])
      = (id3_add_text id3_init [84, 73, 84, 50] [72, 101, 108, 108, 111]).length - 10 ∧
    sizeField (id3_add_comment id3_init [97, 98, 99])
      = (id3_add_comment id3_init [97, 98, 99]).length - 10 ∧
    sizeField (id3_add_private id3_init spc_dumper [97, 98, 99] 3)
      = (id3_add_private id3_init spc_dumper [97, 98, 99] 3).length - 10 :=
  c3_sizeField_invariant id3_init [84, 73, 84, 50] [72, 101, 108, 108, 111]
    [97, 98, 99] spc_dumper [97, 98, 99] 3
    (by decide) (by decide) (by decide) (by decide)

/-- Dropping past the 10 bytes rewritten by `id3_update_len` reads the
underlying appended buffer. -/
theorem id3_update_len_drop (t : List Nat) (k : Nat) (hk : 10 ≤ k)
    (hlen : 6 ≤ t.length) :
    (id3_update_len t).drop k = t.drop k := by
  unfold id3_update_len
  exact writeAt_drop_of_ge t _ k (by rw [pack_uint32_syncsafe_length]; omega) hlen

/-- C5: the syncsafe payload-length prefix written by `id3_add_text` is the
encoding of `n + 2` for an `n`-byte text, by `id3_add_comment` of `n + 6`,
and by `id3_add_private` with a `d`-byte description of `1 + d + 1 + n + 1`;
and adding the 5-byte text `"Hello"` (frame id `"TIT2"`) to a fresh buffer
gives used length 27 with the preamble field decoding to 17. -/
theorem c5_payload_length_formulas (s frame data cdata desc pdata : List Nat)
    (datalen : Nat) (hs : 10 ≤ s.length)
    (h1 : data.length + 2 < 268435456)
    (h2 : cdata.length + 6 < 268435456)
    (h3 : 1 + desc.length + 1 + datalen + 1 < 268435456) :
    unpack_uint32_syncsafe
        (((id3_add_text s frame data).drop (s.length + frame.length)).take 4)
      = data.length + 2 ∧
    unpack_uint32_syncsafe
        (((id3_add_comment s cdata).drop (s.length + 4)).take 4)
      = cdata.length + 6 ∧
    unpack_uint32_syncsafe
        (((id3_add_private s desc pdata datalen).drop (s.length + 4)).take 4)
      = 1 + desc.length + 1 + datalen + 1 ∧
    (id3_add_text id3_init [84, 73, 84, 50] [72, 101, 108, 108, 111]).length
      = 27 ∧
    sizeField (id3_add_text id3_init [84, 73, 84, 50] [72, 101, 108, 108, 111])
      = 17 := by
  refine ⟨?_, ?_, ?_, by decide, by decide⟩
  · unfold id3_add_text
    rw [id3_update_len_drop _ _ (by omega)
      (by simp [pack_uint32_syncsafe_length]; omega)]
    simp only [List.append_assoc]
    rw [drop_take_pack s frame _ _ _ rfl,
      syncsafe_roundtrip_aux _ (by omega)]
    omega
  · unfold id3_add_comment
    rw [id3_update_len_drop _ _ (by omega)
      (by simp [pack_uint32_syncsafe_length]; omega)]
    simp only [List.append_assoc]
    rw [drop_take_pack s [67, 79, 77, 77] _ _ _ (by simp),
      syncsafe_roundtrip_aux _ (by omega)]
    omega
  · unfold id3_add_private
    rw [id3_update_len_drop _ _ (by omega)
      (by simp [pack_uint32_syncsafe_length]; omega)]
    simp only [List.append_assoc]
    rw [drop_take_pack s [84, 88, 88, 88] _ _ _ (by simp),
      syncsafe_roundtrip_aux _ (by omega)]

/-- Witness for C5 with concrete frames on a fresh buffer. -/
theorem c5_payload_length_formulas_witness :
    unpack_uint32_syncsafe
        (((id3_add_text id3_init [84, 73, 84, 50] [72, 101, 108, 108, 111]).drop
          (id3_init.length + [84, 73, 84, 50].length)).take 4)
      = [72, 101, 108, 108, 111].length + 2 ∧
    unpack_uint32_syncsafe
        (((id3_add_comment id3_init [97, 98, 99]).drop (id3_init.length + 4)).take 4)
      = [97, 98, 99].length + 6 ∧
    unpack_uint32_syncsafe
        (((id3_add_private id3_init spc_dumper [97, 98, 99] 3).drop
          (id3_init.length + 4)).take 4)
      = 1 + spc_dumper.length + 1 + 3 + 1 ∧
    (id3_add_text id3_init [84, 73, 84, 50] [72, 101, 108, 108, 111]).length
      = 27 ∧
    sizeField (id3_add_text id3_init [84, 73, 84, 50] [72, 101, 108, 108, 111])
      = 17 :=
  c5_payload_length_formulas id3_init [84, 73, 84, 50] [72, 101, 108, 108, 111]
    [97, 98, 99] spc_dumper [97, 98, 99] 3
    (by decide) (by decide) (by decide) (by decide)

/-- C10: the dumper `"TXXX"` frame that `main` appends embeds
`strnlen(game, 256)` data bytes — game's measured length, not dumper's —
both in the payload-length prefix and in the byte count appended; with a
3-byte game and a 5-byte dumper the prefix decodes to 16, not the 18 that
dumper's own length would give. -/
theorem c10_dumper_length_from_game (s game dumper : List Nat)
    (hs : 10 ≤ s.length) (hsmall : s.length + 300 < 268435456) :
    unpack_uint32_syncsafe
        (((main_add_dumper s game dumper).drop (s.length + 4)).take 4)
      = 1 + 10 + 1 + strnlen game 256 + 1 ∧
    (main_add_dumper s game dumper).length
      = s.length + 23 + strnlen game 256 ∧
    unpack_uint32_syncsafe
        (((main_add_dumper id3_init [97, 98, 99] [72, 101, 108, 108, 111]).drop
          14).take 4) = 16 ∧
    (16 : Nat) ≠ 1 + 10 + 1 + [72, 101, 108, 108, 111].length + 1 := by
  have hb : strnlen game 256 ≤ 256 := by
    simp [strnlen]
  refine ⟨?_, ?_, by decide, by decide⟩
  · unfold main_add_dumper id3_add_private
    rw [id3_update_len_drop _ _ (by omega)
      (by simp [pack_uint32_syncsafe_length]; omega)]
    simp only [List.append_assoc]
    rw [drop_take_pack s [84, 88, 88, 88] _ _ _ (by simp),
      syncsafe_roundtrip_aux _ (by simp [spc_dumper]; omega)]
    simp [spc_dumper]
  · unfold main_add_dumper id3_add_private
    have hlen : (s ++ [84, 88, 88, 88] ++
        pack_uint32_syncsafe (1 + spc_dumper.length + 1 + strnlen game 256 + 1) ++
        [0x00, 0x00, 0x03] ++ spc_dumper ++ [0x00] ++
        byteTake (strnlen game 256) dumper ++ [0x00]).length
        = s.length + 23 + strnlen game 256 := by
      simp [pack_uint32_syncsafe, byteTake_length, spc_dumper]
      omega
    rw [id3_update_len_length _ (by rw [hlen]; omega), hlen]

/-- Witness for C10 on a fresh buffer with a 3-byte game and 5-byte dumper. -/
theorem c10_dumper_length_from_game_witness :
    unpack_uint32_syncsafe
        (((main_add_dumper id3_init [97, 98, 99] [72, 101, 108, 108, 111]).drop
          (id3_init.length + 4)).take 4)
      = 1 + 10 + 1 + strnlen [97, 98, 99] 256 + 1 ∧
    (main_add_dumper id3_init [97, 98, 99] [72, 101, 108, 108, 111]).length
      = id3_init.length + 23 + strnlen [97, 98, 99] 256 ∧
    unpack_uint32_syncsafe
        (((main_add_dumper id3_init [97, 98, 99] [72, 101, 108, 108, 111]).drop
          14).take 4) = 16 ∧
    (16 : Nat) ≠ 1 + 10 + 1 + [72, 101, 108, 108, 111].length + 1 :=
  c10_dumper_length_from_game id3_init [97, 98, 99] [72, 101, 108, 108, 111]
    (by decide) (by decide)

/-! ## The fade envelope

`fade_frames` takes `unsigned int` arguments, so its subtractions wrap at
`2^32`; `usub32` embeds that.  The per-sample update
`data[i] = (int16_t)((double)data[i] * ((double)(f-i)/(double)framesFade))`
is embedded as exact rational scaling truncated toward zero
(`Int.div (v * (f-i)) framesFade`); on every input appearing in the claims
the IEEE `double` computation rounds to the same integer. -/

/-- Wrapping `uint32_t` subtraction. -/
def usub32 (a b : Nat) : Nat := (a + 4294967296 - b) % 4294967296

/-- One faded sample: `v` scaled by `num/den`, truncated toward zero. -/
def fadeSample (v : Int) (num den : Nat) : Int := Int.tdiv (v * num) den

/-- The loop of `fade_frames`: frame `i` (both channels) is scaled by
`(f − i)/den` when `i0 ≤ i < frameCount`; frames outside that range are
left untouched (the loop starts at `i0` and stops at `frameCount`). -/
def fade_go (i0 f den frameCount : Nat) : Nat → List (Int × Int) → List (Int × Int)
  | _, [] => []
  | i, p :: rest =>
    (if i0 ≤ i ∧ i < frameCount then
      (fadeSample p.1 (usub32 f i) den, fadeSample p.2 (usub32 f i) den)
    else p) :: fade_go i0 f den frameCount (i + 1) rest

/-- Embeds `fade_frames`: no-op when the chunk ends more than one fade
window before stream end; otherwise the loop starts at
`i0 = framesRem − framesFade` with `f = framesFade + i0` when the window
starts inside the chunk, or at `i0 = 0` with `f = framesRem` when the fade
is already in progress. -/
def fade_frames (data : List (Int × Int)) (framesRem framesFade frameCount : Nat) :
    List (Int × Int) :=
  if usub32 framesRem frameCount > framesFade then data
  else if framesRem > framesFade then
    fade_go (usub32 framesRem framesFade)
      ((framesFade + usub32 framesRem framesFade) % 4294967296)
      framesFade frameCount 0 data
  else
    fade_go 0 framesRem framesFade frameCount 0 data

/-- The loop indices at which `fade_frames` evaluates the division
`(f-i)/framesFade` — the iterations of the `while(i<frameCount)` loop. -/
def fade_loop_indices (framesRem framesFade frameCount : Nat) : List Nat :=
  if usub32 framesRem frameCount > framesFade then []
  else (List.range frameCount).drop
    (if framesRem > framesFade then usub32 framesRem framesFade else 0)

theorem usub32_eq (a b : Nat) (h : b ≤ a) (h2 : a < 4294967296) :
    usub32 a b = a - b := by
  unfold usub32
  omega

/-- The loop body never fires when it would start at or past `frameCount`. -/
theorem fade_go_of_ge (i0 f den fc : Nat) (hge : fc ≤ i0) :
    ∀ (i : Nat) (data : List (Int × Int)), fade_go i0 f den fc i data = data := by
  intro i data
  induction data generalizing i with
  | nil => rfl
  | cons p rest ih =>
    simp only [fade_go]
    rw [if_neg (by omega), ih]

/-- C6: with fade window length 0 and `framesRem ≥ frameCount`, every sample
of the chunk is left unchanged and the division in the loop body is never
evaluated (the set of loop iterations is empty). -/
theorem c6_fade_noop (data : List (Int × Int)) (framesRem frameCount : Nat)
    (h : frameCount ≤ framesRem) (h32 : framesRem < 4294967296) :
    fade_frames data framesRem 0 frameCount = data ∧
    fade_loop_indices framesRem 0 frameCount = [] := by
  unfold fade_frames fade_loop_indices
  rcases Nat.lt_or_ge frameCount framesRem with hlt | hge
  · have hg : usub32 framesRem frameCount > 0 := by
      rw [usub32_eq _ _ h h32]; omega
    rw [if_pos hg, if_pos hg]
    exact ⟨rfl, rfl⟩
  · have heq : framesRem = frameCount := by omega
    subst heq
    have hg : ¬ usub32 framesRem framesRem > 0 := by
      rw [usub32_eq _ _ h h32]; omega
    rw [if_neg hg, if_neg hg]
    rcases Nat.eq_zero_or_pos framesRem with h0 | hpos
    · subst h0
      have hnp : ¬ (0 : Nat) > 0 := by omega
      rw [if_neg hnp, if_neg hnp]
      exact ⟨fade_go_of_ge 0 0 0 0 (by omega) 0 data, rfl⟩
    · rw [if_pos hpos, if_pos hpos]
      have hi0 : usub32 framesRem 0 = framesRem := usub32_eq framesRem 0 (by omega) h32
      rw [hi0]
      refine ⟨fade_go_of_ge _ _ _ _ (by omega) 0 data, ?_⟩
      exact List.drop_eq_nil_of_le (by rw [List.length_range])

/-- Witness for C6: a concrete chunk of two frames, `framesRem = 3`,
window 0. -/
theorem c6_fade_noop_witness :
    fade_frames [(5, -7), (100, -100)] 3 0 2 = [(5, -7), (100, -100)] ∧
    fade_loop_indices 3 0 2 = [] :=
  c6_fade_noop [(5, -7), (100, -100)] 3 2 (by decide) (by decide)

/-- Linear ramp of the spec for a chunk already inside the fade window:
frame `i` of the chunk is scaled by `(framesRem − i)/framesFade`, truncated
toward zero.  Stated from the spec's words for comparison with the code in
C7. -/
def truncated_window_scale (framesRem framesFade : Nat) :
    Nat → List (Int × Int) → List (Int × Int)
  | _, [] => []
  | i, p :: rest =>
    (fadeSample p.1 (framesRem - i) framesFade,
     fadeSample p.2 (framesRem - i) framesFade) ::
    truncated_window_scale framesRem framesFade (i + 1) rest

theorem fade_go_truncated (framesRem framesFade frameCount : Nat)
    (h32 : framesRem < 4294967296) :
    ∀ (i : Nat) (data : List (Int × Int)), i + data.length ≤ frameCount →
      frameCount ≤ framesRem →
      fade_go 0 framesRem framesFade frameCount i data
        = truncated_window_scale framesRem framesFade i data := by
  intro i data
  induction data generalizing i with
  | nil => intro _ _; rfl
  | cons p rest ih =>
    intro hlen hrem
    simp only [List.length_cons] at hlen
    simp only [fade_go, truncated_window_scale]
    rw [if_pos (by omega), usub32_eq _ _ (by omega) h32, ih (i + 1) (by omega) hrem]

/-- C7: when the fade is already in progress on entry
(`framesRem ≤ framesFade`), the effective window is truncated to
`framesRem`: frame `i` of the chunk is scaled by `(framesRem − i)/framesFade`;
in particular for `framesFade = 100`, `framesRem = 50` the first frame's
multiplier is `50/100 = 0.5`, scaling the sample 100 to 50. -/
theorem c7_fade_truncated_window (data : List (Int × Int))
    (framesRem framesFade frameCount : Nat)
    (hin : framesRem ≤ framesFade) (hfc : frameCount ≤ framesRem)
    (hdl : data.length = frameCount) (h32 : framesFade < 4294967296) :
    fade_frames data framesRem framesFade frameCount
      = truncated_window_scale framesRem framesFade 0 data ∧
    fade_frames [(100, -100)] 50 100 1 = [(50, -50)] := by
  refine ⟨?_, by decide⟩
  unfold fade_frames
  rw [if_neg (by rw [usub32_eq _ _ hfc (by omega)]; omega), if_neg (by omega)]
  exact fade_go_truncated framesRem framesFade frameCount (by omega) 0 data
    (by omega) hfc

/-- Witness for C7 at the claim's numbers: one frame, `framesRem = 50`,
window 100. -/
theorem c7_fade_truncated_window_witness :
    fade_frames [(100, -100)] 50 100 1
      = truncated_window_scale 50 100 0 [(100, -100)] ∧
    fade_frames [(100, -100)] 50 100 1 = [(50, -50)] :=
  c7_fade_truncated_window [(100, -100)] 50 100 1
    (by decide) (by decide) (by decide) (by decide)

/-! ## The render loop at the sample level -/

/-- Embeds the render loop of `main` (lines 264-272) at the sample level:
chunks of at most 4096 frames are pulled from the decoder/filter
collaborator (modelled as the frame-indexed source `src`), faded in place,
and concatenated.  The first argument after `fadeFrames` is structural fuel;
any fuel ≥ `totalFrames` runs the loop to completion because every
iteration consumes at least one frame. -/
def render_go (src : Nat → Int × Int) (fadeFrames : Nat) :
    Nat → Nat → Nat → List (Int × Int)
  | 0, _, _ => []
  | fuel + 1, pos, totalFrames =>
    if totalFrames = 0 then []
    else
      let fc := min totalFrames 4096
      fade_frames ((List.range fc).map fun j => src (pos + j))
          totalFrames fadeFrames fc ++
        render_go src fadeFrames fuel (pos + fc) (totalFrames - fc)

/-- The full rendered sample stream for a conversion job. -/
def render (src : Nat → Int × Int) (totalFrames fadeFrames : Nat) :
    List (Int × Int) :=
  render_go src fadeFrames totalFrames 0 totalFrames

/-- C1 as stated is false: in the 10-frame scenario with a 5-frame fade and
constant decoder output (100, −100), the last frame's multiplier is
`(10 − 9)/5 = 1/5`, so frame 9 is (20, −20), not 0. -/
theorem c1_fade_scenario_counterexample :
    (render (fun _ => (100, -100)) 10 5).getD 9 (0, 0) ≠ (0, 0) := by decide

/-- C1 amended: frames 0-5 come out as (100, −100) — frame 5's multiplier is
`5/5 = 1` — and frames 6-9 are linearly scaled by `(10 − i)/5`, giving
(80, −80), (60, −60), (40, −40), (20, −20); the ramp reaches 0 only one
frame past the end of the stream, so frame 9 is (20, −20), not 0. -/
theorem c1_fade_scenario_amended :
    render (fun _ => (100, -100)) 10 5
      = [(100, -100), (100, -100), (100, -100), (100, -100), (100, -100),
         (100, -100), (80, -80), (60, -60), (40, -40), (20, -20)] := by decide

/-! ## The WAV container writer and main's output phase

File output is modelled by an output stream that can deliver only `budget`
more bytes; an `fwrite` whose request exceeds the remaining budget is a
short write (C `fwrite` returning fewer items than requested), modelled as
delivering nothing and reporting failure. -/

structure OutFile where
  bytes : List Nat
  budget : Nat

/-- One `fwrite` call: append the bytes on success, fail on a short write. -/
def fwrite (f : OutFile) (d : List Nat) : OutFile × Bool :=
  if d.length ≤ f.budget then (⟨f.bytes ++ d, f.budget - d.length⟩, true)
  else (f, false)

/-- The early-return chain shared by `write_wav_header` and
`write_wav_footer`: each segment is written in turn; the first short write
stops the function with status 0, and status 1 means every byte was
delivered. -/
def write_all (f : OutFile) : List (List Nat) → OutFile × Nat
  | [] => (f, 1)
  | d :: rest =>
    let r := fwrite f d
    if r.2 then write_all r.1 rest else (r.1, 0)

/-- The thirteen segments `write_wav_header` writes, in order.  `dataSize`
is computed in a C `unsigned int`, hence the `% 2^32`; `id3Size` is
`id3->len + 8` when the tag buffer holds more than its 10-byte preamble. -/
def header_segments (totalFrames id3len : Nat) : List (List Nat) :=
  let dataSize := totalFrames * 2 * 2 % 4294967296
  let id3Size := if id3len > 10 then id3len + 8 else 0
  [[82, 73, 70, 70],
   pack_uint32le (dataSize + 44 - 8 + id3Size),
   [87, 65, 86, 69],
   [102, 109, 116, 32],
   pack_uint32le 16,
   pack_uint16le 1,
   pack_uint16le 2,
   pack_uint32le 32000,
   pack_uint32le (32000 * 2 * 2),
   pack_uint16le (2 * 2),
   pack_uint16le (2 * 8),
   [100, 97, 116, 97],
   pack_uint32le dataSize]

/-- Embeds `write_wav_header`. -/
def run_wav_header (f : OutFile) (totalFrames id3len : Nat) : OutFile × Nat :=
  write_all f (header_segments totalFrames id3len)

/-- The 44 header bytes as written when every write succeeds. -/
def write_wav_header_bytes (totalFrames id3len : Nat) : List Nat :=
  (header_segments totalFrames id3len).flatten

/-- The segments `write_wav_footer` writes when the tag buffer holds more
than its preamble: the `"ID3 "` magic, the used length as little-endian
`uint32_t`, and the raw tag bytes. -/
def footer_segments (id3 : List Nat) : List (List Nat) :=
  [[73, 68, 51, 32], pack_uint32le id3.length, id3]

/-- Embeds `write_wav_footer`: nothing is written (status 1) when the used
length is exactly 10. -/
def run_wav_footer (f : OutFile) (id3 : List Nat) : OutFile × Nat :=
  if id3.length = 10 then (f, 1)
  else write_all f (footer_segments id3)

/-- Embeds `pack_int16le` on a signed 16-bit sample: the bytes are the
`uint8_t` casts of `n` and `n >> 8`, i.e. the little-endian split of the
two's-complement pattern `n mod 2^16` (for `n` in int16 range the C
arithmetic shift then cast agrees with `(n mod 2^16) / 256`). -/
def pack_int16le (n : Int) : List Nat :=
  [(n % 65536).toNat % 256, (n % 65536).toNat / 256]

/-- Embeds `pack_frames` over a whole chunk: left then right sample of each
frame, 4 bytes per frame. -/
def pack_frames (s : List (Int × Int)) : List Nat :=
  (s.map fun p => pack_int16le p.1 ++ pack_int16le p.2).flatten

/-- Embeds `write_frames`: one `fwrite` of the packed chunk, status 1 only
when the full chunk was delivered. -/
def run_frames (f : OutFile) (frames : List (Int × Int)) : OutFile × Nat :=
  let r := fwrite f (pack_frames frames)
  (r.1, if r.2 then 1 else 0)

/-- Embeds the render loop of `main` at the file level: each chunk is faded,
packed and written; the status returned by `write_frames` is discarded,
exactly as `main` discards it.  Fuel as in `render_go`. -/
def render_write (src : Nat → Int × Int) (fadeFrames : Nat) :
    Nat → OutFile → Nat → Nat → OutFile
  | 0, f, _, _ => f
  | fuel + 1, f, pos, totalFrames =>
    if totalFrames = 0 then f
    else
      let fc := min totalFrames 4096
      let chunk := fade_frames ((List.range fc).map fun j => src (pos + j))
        totalFrames fadeFrames fc
      render_write src fadeFrames fuel (run_frames f chunk).1 (pos + fc)
        (totalFrames - fc)

/-- Embeds `main`'s output phase (lines 263-274): write the header, run the
loop, write the footer, and fall through to `return 0`.  The `int` results
of `write_wav_header`, `write_frames` and `write_wav_footer` are discarded
exactly as `main` discards them, so the second component — `main`'s exit
status for this phase — is always 0. -/
def run_output (f : OutFile) (src : Nat → Int × Int)
    (totalFrames fadeFrames : Nat) (id3 : List Nat) : OutFile × Nat :=
  let f1 := (run_wav_header f totalFrames id3.length).1
  let f2 := render_write src fadeFrames totalFrames f1 0 totalFrames
  let f3 := (run_wav_footer f2 id3).1
  (f3, 0)

theorem pack_uint32le_mod (m n : Nat) (h : m % 4294967296 = n % 4294967296) :
    pack_uint32le m = pack_uint32le n := by
  simp only [pack_uint32le, Nat.shiftRight_eq_div_pow, List.cons.injEq, and_true]
  norm_num
  omega

/-- C2: `write_wav_header` writes 44 bytes; the data-size field (bytes
40-43) is the 32-bit little-endian encoding of `totalFrames*2*2`, and the
RIFF chunk-size field (bytes 4-7) encodes `dataSize + 44 − 8` plus
`id3len + 8` when the tag buffer's used length exceeds 10; for
`totalFrames = 1000` with the 10-byte empty tag the fields decode to 4000
and 4036. -/
theorem c2_wav_header_fields (totalFrames id3len : Nat) :
    (write_wav_header_bytes totalFrames id3len).length = 44 ∧
    ((write_wav_header_bytes totalFrames id3len).drop 40).take 4
      = pack_uint32le (totalFrames * 2 * 2) ∧
    ((write_wav_header_bytes totalFrames id3len).drop 4).take 4
      = pack_uint32le (totalFrames * 2 * 2 + 44 - 8 +
          (if id3len > 10 then id3len + 8 else 0)) ∧
    unpack_uint32le (((write_wav_header_bytes 1000 10).drop 40).take 4) = 4000 ∧
    unpack_uint32le (((write_wav_header_bytes 1000 10).drop 4).take 4) = 4036 := by
  refine ⟨?_, ?_, ?_, by decide, by decide⟩
  · simp [write_wav_header_bytes, header_segments, pack_uint32le, pack_uint16le]
  · have hmod : pack_uint32le (totalFrames * 2 * 2)
        = pack_uint32le (totalFrames * 2 * 2 % 4294967296) :=
      pack_uint32le_mod _ _ (by omega)
    rw [hmod]
    simp [write_wav_header_bytes, header_segments, pack_uint32le, pack_uint16le]
  · have hmod : pack_uint32le (totalFrames * 2 * 2 + 44 - 8 +
        (if id3len > 10 then id3len + 8 else 0))
        = pack_uint32le (totalFrames * 2 * 2 % 4294967296 + 44 - 8 +
          (if id3len > 10 then id3len + 8 else 0)) := by
      apply pack_uint32le_mod
      omega
    rw [hmod]
    simp [write_wav_header_bytes, header_segments, pack_uint32le, pack_uint16le]

/-- When the budget covers every segment, `write_all` delivers their
concatenation and reports success. -/
theorem write_all_success (segs : List (List Nat)) :
    ∀ f : OutFile, (segs.map List.length).sum ≤ f.budget →
      write_all f segs
        = (⟨f.bytes ++ segs.flatten,
            f.budget - (segs.map List.length).sum⟩, 1) := by
  induction segs with
  | nil => intro f h; simp [write_all]
  | cons d rest ih =>
    intro f h
    simp only [List.map_cons, List.sum_cons] at h
    have hle : d.length ≤ f.budget := by omega
    have step : write_all f (d :: rest)
        = write_all ⟨f.bytes ++ d, f.budget - d.length⟩ rest := by
      simp [write_all, fwrite, hle]
    rw [step, ih ⟨f.bytes ++ d, f.budget - d.length⟩ (by simp; omega)]
    simp [List.append_assoc]
    omega

/-- C9: `write_wav_footer` writes zero bytes when the tag buffer's used
length is exactly 10; when the used length exceeds 10 (and the stream
accepts the bytes) it writes the `"ID3 "` magic, the used length as
little-endian `uint32_t`, then the buffer's raw bytes. -/
theorem c9_footer_omission (f : OutFile) (id3 : List Nat) :
    (id3.length = 10 → run_wav_footer f id3 = (f, 1)) ∧
    (id3.length > 10 → 8 + id3.length ≤ f.budget →
      (run_wav_footer f id3).1.bytes
        = f.bytes ++ [73, 68, 51, 32] ++ pack_uint32le id3.length ++ id3) := by
  constructor
  · intro h10
    simp [run_wav_footer, h10]
  · intro hgt hbud
    rw [run_wav_footer, if_neg (by omega)]
    rw [write_all_success _ f
      (by simp [footer_segments, pack_uint32le]; omega)]
    simp [footer_segments, List.append_assoc]

/-- Witness for C9: the empty tag writes nothing; a tag with one text frame
is written in full after 100 budgeted bytes. -/
theorem c9_footer_omission_witness :
    run_wav_footer ⟨[], 100⟩ id3_init = (⟨[], 100⟩, 1) ∧
    (run_wav_footer ⟨[], 100⟩
        (id3_add_text id3_init [84, 73, 84, 50] [72, 101, 108, 108, 111])).1.bytes
      = [] ++ [73, 68, 51, 32] ++
        pack_uint32le (id3_add_text id3_init [84, 73, 84, 50]
          [72, 101, 108, 108, 111]).length ++
        id3_add_text id3_init [84, 73, 84, 50] [72, 101, 108, 108, 111] :=
  ⟨(c9_footer_omission ⟨[], 100⟩ id3_init).1 (by decide),
   (c9_footer_omission ⟨[], 100⟩
      (id3_add_text id3_init [84, 73, 84, 50] [72, 101, 108, 108, 111])).2
      (by decide) (by decide)⟩

/-- C8 is a code bug: on an output stream that delivers no bytes every
writer detects its short write and returns failure status 0, yet `main`'s
output phase discards those statuses and finishes with exit status 0 —
the conversion is not aborted and no exit(1) happens. -/
theorem c8_write_failure_ignored :
    (run_wav_header ⟨[], 0⟩ 10 10).2 = 0 ∧
    (run_frames ⟨[], 0⟩ [(100, -100)]).2 = 0 ∧
    (run_wav_footer ⟨[], 0⟩
        (id3_add_text id3_init [84, 73, 84, 50] [72, 101, 108, 108, 111])).2
      = 0 ∧
    (run_output ⟨[], 0⟩ (fun _ => (100, -100)) 10 5
        (id3_add_text id3_init [84, 73, 84, 50] [72, 101, 108, 108, 111])).2
      = 0 ∧
    (run_output ⟨[], 0⟩ (fun _ => (100, -100)) 10 5
        (id3_add_text id3_init [84, 73, 84, 50] [72, 101, 108, 108, 111])).1.bytes
      = [] := by
  refine ⟨by decide, by decide, by decide, rfl, by decide⟩

end Spc2Wav
